import Mathlib

/-!
Shallow embedding of `src/services/machineLearning/machineLearningFactory.ts`
(classes `MLFactory` and `LocalMLSyncContext`) and the parts of its
collaborators the verified properties need.

Modelling conventions:
* TypeScript exceptions become `Except String`; the thrown `Error` messages are
  reproduced verbatim (including the source's `Unknon` spelling).
* The two worker arrays are `List (Option _)` of length `concurrency`;
  a JS empty array slot (`undefined`, falsy) is `none`.
* Raw web workers live in a ghost world `spawnedWorkers : List Bool`
  (index = spawn order, value = alive).  `getDedicatedCryptoWorker` appends a
  live worker; `worker.terminate()` sets its entry to `false` (terminating an
  already-terminated worker is a no-op, as in the browser API).
* `getEnteWorker`'s body contains no `await`, so under JavaScript's
  run-to-completion semantics each invocation is a single atomic step; any
  concurrent schedule of invocations is therefore a sequential interleaving,
  modelled as a list of calls folded over the context state.
-/

namespace MLSyncModel

/-- Modelled from the spec: opaque per-file metadata record (`EnteFile` from
`types/file`, not part of the reviewed sources); only its identity matters. -/
structure EnteFile where
  fileId : Nat
deriving DecidableEq, Repr

/-- Modelled from the spec: opaque per-file detection result (`Face` from
`types/machineLearning`, not part of the reviewed sources). -/
structure Face where
  faceId : Nat
deriving DecidableEq, Repr

/-- Modelled from the spec: opaque versioned blob (`MLLibraryData` from
`types/machineLearning`, not part of the reviewed sources). -/
structure MLLibraryData where
  version : Nat
deriving DecidableEq, Repr

/-- The face-detection service singletons the factory can return
(`blazeFaceDetectionService` is the only registered one). -/
inductive FaceDetectionService
  | blazeFaceDetectionService
deriving DecidableEq, Repr

/-- The face-crop service singletons (`arcfaceCropService`). -/
inductive FaceCropService
  | arcfaceCropService
deriving DecidableEq, Repr

/-- The face-alignment service singletons (`arcfaceAlignmentService`). -/
inductive FaceAlignmentService
  | arcfaceAlignmentService
deriving DecidableEq, Repr

/-- The face-embedding service singletons (`mobileFaceNetEmbeddingService`). -/
inductive FaceEmbeddingService
  | mobileFaceNetEmbeddingService
deriving DecidableEq, Repr

/-- The clustering service singletons (`hdbscanClusteringService`,
`dbscanClusteringService`). -/
inductive ClusteringService
  | hdbscanClusteringService
  | dbscanClusteringService
deriving DecidableEq, Repr

/-- One per-stage configuration record: `{ method: ... }`.  Method names are
strings, as they are at the JavaScript runtime boundary. -/
structure MethodConfig where
  method : String
deriving DecidableEq, Repr

/-- Embeds `MLSyncConfig`: the five per-stage method configurations the constructor
reads (`config.faceDetection.method`, ...). -/
structure MLSyncConfig where
  faceDetection : MethodConfig
  faceCrop : MethodConfig
  faceAlignment : MethodConfig
  faceEmbedding : MethodConfig
  faceClustering : MethodConfig
deriving DecidableEq, Repr

namespace MLFactory

/-- Embeds `MLFactory.getFaceDetectionService`: returns the BlazeFace singleton, else
throws `Error('Unknon face detection method: ' + method)`. -/
def getFaceDetectionService (method : String) :
    Except String FaceDetectionService :=
  if method = "BlazeFace" then
    .ok .blazeFaceDetectionService
  else
    .error ("Unknon face detection method: " ++ method)

/-- Embeds `MLFactory.getFaceCropService`. -/
def getFaceCropService (method : String) : Except String FaceCropService :=
  if method = "ArcFace" then
    .ok .arcfaceCropService
  else
    .error ("Unknon face crop method: " ++ method)

/-- Embeds `MLFactory.getFaceAlignmentService`. -/
def getFaceAlignmentService (method : String) :
    Except String FaceAlignmentService :=
  if method = "ArcFace" then
    .ok .arcfaceAlignmentService
  else
    .error ("Unknon face alignment method: " ++ method)

/-- Embeds `MLFactory.getFaceEmbeddingService`. -/
def getFaceEmbeddingService (method : String) :
    Except String FaceEmbeddingService :=
  if method = "MobileFaceNet" then
    .ok .mobileFaceNetEmbeddingService
  else
    .error ("Unknon face embedding method: " ++ method)

/-- Embeds `MLFactory.getClusteringService` (two registered methods). -/
def getClusteringService (method : String) : Except String ClusteringService :=
  if method = "Hdbscan" then
    .ok .hdbscanClusteringService
  else if method = "Dbscan" then
    .ok .dbscanClusteringService
  else
    .error ("Unknon clustering method: " ++ method)

end MLFactory

/-- Modelled from the spec: `CONCURRENCY` (from `utils/common/concurrency`,
not part of the reviewed sources) is the derived default concurrency, a
positive machine-derived value; its exact value is irrelevant to the claims. -/
def CONCURRENCY : Nat := 4

/-- Embeds `concurrency || CONCURRENCY`: a missing argument or the falsy value `0`
falls back to the derived default. -/
def resolveConcurrency : Option Nat → Nat
  | none => CONCURRENCY
  | some c => if c = 0 then CONCURRENCY else c

/-- The sync `PQueue`: concurrency bound plus the number of attached
listeners (the only queue state the verified properties touch). -/
structure PQueue where
  concurrency : Nat
  listeners : Nat
deriving DecidableEq, Repr

/-- Modelled from the spec: `logQueueStats` (from `utils/machineLearning`,
not part of the reviewed sources) attaches an observability listener to the
queue; advisory only. -/
def logQueueStats (q : PQueue) : PQueue :=
  { q with listeners := q.listeners + 1 }

/-- Handle to a dedicated crypto worker (`ComlinkWorker` from
`utils/comlink`): `workerId` is the index of its raw worker in the ghost
spawn world. -/
structure ComlinkWorker where
  workerId : Nat
deriving DecidableEq, Repr

/-- A comlink proxy instance (`new comlinkWorker.comlink()`), the handle
`getEnteWorker` returns; it is backed by the raw worker `workerId`. -/
structure EnteWorker where
  workerId : Nat
deriving DecidableEq, Repr

/-- The state of a successfully constructed `LocalMLSyncContext`, together
with the ghost world `spawnedWorkers` of raw web workers. -/
structure LocalMLSyncContext where
  token : String
  config : MLSyncConfig
  shouldUpdateMLVersion : Bool
  faceDetectionService : FaceDetectionService
  faceCropService : FaceCropService
  faceAlignmentService : FaceAlignmentService
  faceEmbeddingService : FaceEmbeddingService
  faceClusteringService : ClusteringService
  localFilesMap : Option (List (Nat × EnteFile))
  outOfSyncFiles : List EnteFile
  nSyncedFiles : Nat
  nSyncedFaces : Nat
  allSyncedFacesMap : Option (List (Nat × List Face))
  error : Option String
  mlLibraryData : Option MLLibraryData
  syncQueue : PQueue
  concurrency : Nat
  enteComlinkWorkers : List (Option ComlinkWorker)
  enteWorkers : List (Option EnteWorker)
  spawnedWorkers : List Bool
deriving DecidableEq, Repr

/-- The `LocalMLSyncContext` constructor, success/failure as `Except`.
Field assignments follow the source order; a factory throw aborts
construction (the half-built object is discarded, so on failure no context
exists).  `localFilesMap`, `allSyncedFacesMap`, `error` and `mlLibraryData`
are declared fields the constructor never assigns: they stay `none`. -/
def construct (token : String) (config : MLSyncConfig)
    (shouldUpdateMLVersion : Bool) (concurrency : Option Nat) :
    Except String LocalMLSyncContext :=
  match MLFactory.getFaceDetectionService config.faceDetection.method with
  | .error e => .error e
  | .ok faceDetectionService =>
  match MLFactory.getFaceCropService config.faceCrop.method with
  | .error e => .error e
  | .ok faceCropService =>
  match MLFactory.getFaceAlignmentService config.faceAlignment.method with
  | .error e => .error e
  | .ok faceAlignmentService =>
  match MLFactory.getFaceEmbeddingService config.faceEmbedding.method with
  | .error e => .error e
  | .ok faceEmbeddingService =>
  match MLFactory.getClusteringService config.faceClustering.method with
  | .error e => .error e
  | .ok faceClusteringService =>
  let conc := resolveConcurrency concurrency
  .ok {
    token := token
    config := config
    shouldUpdateMLVersion := shouldUpdateMLVersion
    faceDetectionService := faceDetectionService
    faceCropService := faceCropService
    faceAlignmentService := faceAlignmentService
    faceEmbeddingService := faceEmbeddingService
    faceClusteringService := faceClusteringService
    localFilesMap := none
    outOfSyncFiles := []
    nSyncedFiles := 0
    nSyncedFaces := 0
    allSyncedFacesMap := none
    error := none
    mlLibraryData := none
    syncQueue := logQueueStats { concurrency := conc, listeners := 0 }
    concurrency := conc
    enteComlinkWorkers := List.replicate conc none
    enteWorkers := List.replicate conc none
    spawnedWorkers := [] }

/-- The constructor's intermediate assignments, for the partial-initialization
property: each field is `none` until the corresponding source line has run.
Mirrors the source statement order exactly. -/
structure InitState where
  token : Option String
  config : Option MLSyncConfig
  shouldUpdateMLVersion : Option Bool
  faceDetectionService : Option FaceDetectionService
  faceCropService : Option FaceCropService
  faceAlignmentService : Option FaceAlignmentService
  faceEmbeddingService : Option FaceEmbeddingService
  faceClusteringService : Option ClusteringService
  outOfSyncFiles : Option (List EnteFile)
  nSyncedFiles : Option Nat
  nSyncedFaces : Option Nat
  concurrency : Option Nat
  syncQueue : Option PQueue
  enteComlinkWorkers : Option (List (Option ComlinkWorker))
  enteWorkers : Option (List (Option EnteWorker))
deriving DecidableEq, Repr

/-- The all-unassigned constructor state. -/
def InitState.empty : InitState :=
  ⟨none, none, none, none, none, none, none, none, none, none, none, none,
   none, none, none⟩

/-- Runs the constructor body statement by statement, stopping at the first
factory throw; returns the assignments made so far and the error, if any. -/
def constructorRun (token : String) (config : MLSyncConfig)
    (shouldUpdateMLVersion : Bool) (concurrency : Option Nat) :
    InitState × Option String :=
  let s := { InitState.empty with
      token := some token
      config := some config
      shouldUpdateMLVersion := some shouldUpdateMLVersion }
  match MLFactory.getFaceDetectionService config.faceDetection.method with
  | .error e => (s, some e)
  | .ok fd =>
  let s := { s with faceDetectionService := some fd }
  match MLFactory.getFaceCropService config.faceCrop.method with
  | .error e => (s, some e)
  | .ok fc =>
  let s := { s with faceCropService := some fc }
  match MLFactory.getFaceAlignmentService config.faceAlignment.method with
  | .error e => (s, some e)
  | .ok fa =>
  let s := { s with faceAlignmentService := some fa }
  match MLFactory.getFaceEmbeddingService config.faceEmbedding.method with
  | .error e => (s, some e)
  | .ok fe =>
  let s := { s with faceEmbeddingService := some fe }
  match MLFactory.getClusteringService config.faceClustering.method with
  | .error e => (s, some e)
  | .ok fcl =>
  let s := { s with faceClusteringService := some fcl }
  let s := { s with outOfSyncFiles := some [] }
  let s := { s with nSyncedFiles := some 0 }
  let s := { s with nSyncedFaces := some 0 }
  let conc := resolveConcurrency concurrency
  let s := { s with concurrency := some conc }
  let s := { s with
      syncQueue := some (logQueueStats { concurrency := conc, listeners := 0 }) }
  let s := { s with
      enteComlinkWorkers := some (List.replicate conc none) }
  let s := { s with enteWorkers := some (List.replicate conc none) }
  (s, none)

/-- The five pipeline stage categories, in constructor resolution order. -/
inductive MLStage
  | faceDetection
  | faceCrop
  | faceAlignment
  | faceEmbedding
  | faceClustering
deriving DecidableEq, Repr

/-- The category wording used in the factory's error messages. -/
def MLStage.categoryName : MLStage → String
  | .faceDetection => "face detection"
  | .faceCrop => "face crop"
  | .faceAlignment => "face alignment"
  | .faceEmbedding => "face embedding"
  | .faceClustering => "clustering"

/-- The exact message the factory throws for an unregistered method: it
carries both the stage category and the method name. -/
def unknownMethodMessage (s : MLStage) (method : String) : String :=
  "Unknon " ++ s.categoryName ++ " method: " ++ method

/-- The method name the configuration supplies for a stage. -/
def stageMethod (config : MLSyncConfig) : MLStage → String
  | .faceDetection => config.faceDetection.method
  | .faceCrop => config.faceCrop.method
  | .faceAlignment => config.faceAlignment.method
  | .faceEmbedding => config.faceEmbedding.method
  | .faceClustering => config.faceClustering.method

/-- Whether a stage's configured method resolves in the factory. -/
def stageRegistered (config : MLSyncConfig) : MLStage → Bool
  | .faceDetection =>
      (MLFactory.getFaceDetectionService config.faceDetection.method).toBool
  | .faceCrop =>
      (MLFactory.getFaceCropService config.faceCrop.method).toBool
  | .faceAlignment =>
      (MLFactory.getFaceAlignmentService config.faceAlignment.method).toBool
  | .faceEmbedding =>
      (MLFactory.getFaceEmbeddingService config.faceEmbedding.method).toBool
  | .faceClustering =>
      (MLFactory.getClusteringService config.faceClustering.method).toBool

/-- Embeds `getEnteWorker(id)`:
```
const wid = id % this.enteWorkers.length;
if (!this.enteWorkers[wid]) {
    this.enteComlinkWorkers[wid] = getDedicatedCryptoWorker();
    this.enteWorkers[wid] = new this.enteComlinkWorkers[wid].comlink();
}
return this.enteWorkers[wid];
```
An empty slot is falsy; a stored proxy object is always truthy.
`getDedicatedCryptoWorker()` spawns a fresh raw worker (appended alive to the
ghost world); the comlink proxy wraps that same worker.  The body has no
suspension point, so the whole call is one atomic step. -/
def getEnteWorker (c : LocalMLSyncContext) (id : Nat) :
    LocalMLSyncContext × EnteWorker :=
  let wid := id % c.enteWorkers.length
  match c.enteWorkers.getD wid none with
  | some w => (c, w)
  | none =>
      let fresh := c.spawnedWorkers.length
      let cw : ComlinkWorker := ⟨fresh⟩
      let w : EnteWorker := ⟨fresh⟩
      ({ c with
          enteComlinkWorkers := c.enteComlinkWorkers.set wid (some cw)
          enteWorkers := c.enteWorkers.set wid (some w)
          spawnedWorkers := c.spawnedWorkers ++ [true] }, w)

/-- Which step of lazy slot creation fails, for fault injection: the source
performs two statements, `getDedicatedCryptoWorker()` (spawn) and
`new ...comlink()` (wrap), and an exception in either aborts the call with
the mutations already made left in place. -/
inductive SpawnOutcome
  | ok
  | failSpawn
  | failWrap
deriving DecidableEq, Repr

/-- Embeds `getEnteWorker` with fault injection on the creation path.  On
`failSpawn` the first assignment never executes; on `failWrap` the comlink
worker has already been spawned and stored when the wrap throws, so
`enteComlinkWorkers[wid]` keeps it while `enteWorkers[wid]` stays empty. -/
def getEnteWorkerFI (outcome : SpawnOutcome) (c : LocalMLSyncContext)
    (id : Nat) : LocalMLSyncContext × Except String EnteWorker :=
  let wid := id % c.enteWorkers.length
  match c.enteWorkers.getD wid none with
  | some w => (c, .ok w)
  | none =>
      match outcome with
      | .failSpawn => (c, .error "worker spawn failed")
      | .failWrap =>
          let fresh := c.spawnedWorkers.length
          let cw : ComlinkWorker := ⟨fresh⟩
          ({ c with
              enteComlinkWorkers := c.enteComlinkWorkers.set wid (some cw)
              spawnedWorkers := c.spawnedWorkers ++ [true] },
           .error "comlink wrap failed")
      | .ok =>
          let fresh := c.spawnedWorkers.length
          let cw : ComlinkWorker := ⟨fresh⟩
          let w : EnteWorker := ⟨fresh⟩
          ({ c with
              enteComlinkWorkers := c.enteComlinkWorkers.set wid (some cw)
              enteWorkers := c.enteWorkers.set wid (some w)
              spawnedWorkers := c.spawnedWorkers ++ [true] }, .ok w)

/-- The observable steps of `dispose()`, in program order. -/
inductive DisposeEvent
  | clearLocalFilesMap
  | awaitQueueIdle
  | removeAllListeners
  | terminateWorker (workerId : Nat)
deriving DecidableEq, Repr

/-- Embeds `dispose()`:
```
this.localFilesMap = undefined;
await this.syncQueue.onIdle();
this.syncQueue.removeAllListeners();
for (const enteComlinkWorker of this.enteComlinkWorkers) {
    enteComlinkWorker?.worker.terminate();
}
```
Returns the post-state and the trace of steps taken.  Awaiting `onIdle`
changes no context state (it resolves once the queue drains); the loop's
optional chaining skips empty slots; `terminate()` marks the raw worker dead
in the ghost world (a no-op on an already-dead worker).  `terminateStep` is
one iteration of the loop. -/
def terminateStep (acc : List Bool × List DisposeEvent) :
    Option ComlinkWorker → List Bool × List DisposeEvent
  | none => acc
  | some cw =>
      (acc.1.set cw.workerId false,
       acc.2 ++ [DisposeEvent.terminateWorker cw.workerId])

def dispose (c : LocalMLSyncContext) :
    LocalMLSyncContext × List DisposeEvent :=
  let headEvents := [DisposeEvent.clearLocalFilesMap,
                     DisposeEvent.awaitQueueIdle,
                     DisposeEvent.removeAllListeners]
  let folded := c.enteComlinkWorkers.foldl terminateStep (c.spawnedWorkers, [])
  ({ c with
      localFilesMap := none
      syncQueue := { c.syncQueue with listeners := 0 }
      spawnedWorkers := folded.1 },
   headEvents ++ folded.2)

/-- A sequence of `getEnteWorker` calls applied to the context: the
sequential interleaving of atomic calls (the JS event-loop schedule). -/
def runCalls (c : LocalMLSyncContext) (ids : List Nat) :
    LocalMLSyncContext :=
  ids.foldl (fun c id => (getEnteWorker c id).1) c

/-- One call of `getEnteWorker`, instrumented: alongside the state step it
records the slot index when the call found the slot empty (performed lazy
creation). -/
def creationStep (acc : LocalMLSyncContext × List Nat) (id : Nat) :
    LocalMLSyncContext × List Nat :=
  match acc.1.enteWorkers.getD (id % acc.1.enteWorkers.length) none with
  | some _ => ((getEnteWorker acc.1 id).1, acc.2)
  | none =>
      ((getEnteWorker acc.1 id).1,
       acc.2 ++ [id % acc.1.enteWorkers.length])

/-- The slots at which a call sequence performed lazy creation, in order. -/
def creationSlots (c : LocalMLSyncContext) (ids : List Nat) : List Nat :=
  (ids.foldl creationStep (c, [])).2

/-! ### Helper lemmas -/

/-- Writing back the value already stored at an index is the identity. -/
theorem set_self_of_getElem {α : Type} :
    ∀ (l : List α) (i : Nat) (a : α), l[i]? = some a → l.set i a = l
  | [], i, a, h => by simp at h
  | b :: l, 0, a, h => by
      simp at h
      simp [h]
  | b :: l, i + 1, a, h => by
      simp only [List.getElem?_cons_succ] at h
      simp [List.set_cons_succ, set_self_of_getElem l i a h]

/-- An occupied slot makes `getEnteWorker` return the stored handle with no
state change. -/
theorem getEnteWorker_occupied (c : LocalMLSyncContext) (id : Nat)
    (w : EnteWorker)
    (h : c.enteWorkers.getD (id % c.enteWorkers.length) none = some w) :
    getEnteWorker c id = (c, w) := by
  rw [List.getD_eq_getElem?_getD] at h
  simp [getEnteWorker, h]

/-- An empty slot makes `getEnteWorker` create a fresh pair of handles. -/
theorem getEnteWorker_created (c : LocalMLSyncContext) (id : Nat)
    (h : c.enteWorkers.getD (id % c.enteWorkers.length) none = none) :
    getEnteWorker c id =
      ({ c with
          enteComlinkWorkers := c.enteComlinkWorkers.set
            (id % c.enteWorkers.length) (some ⟨c.spawnedWorkers.length⟩)
          enteWorkers := c.enteWorkers.set
            (id % c.enteWorkers.length) (some ⟨c.spawnedWorkers.length⟩)
          spawnedWorkers := c.spawnedWorkers ++ [true] },
       ⟨c.spawnedWorkers.length⟩) := by
  rw [List.getD_eq_getElem?_getD] at h
  simp [getEnteWorker, h]

/-- `getEnteWorker` preserves the length of the worker array. -/
theorem getEnteWorker_length (c : LocalMLSyncContext) (id : Nat) :
    (getEnteWorker c id).1.enteWorkers.length = c.enteWorkers.length := by
  rcases h : c.enteWorkers.getD (id % c.enteWorkers.length) none with _ | w
  · rw [getEnteWorker_created c id h]
    simp
  · rw [getEnteWorker_occupied c id w h]

/-- `getEnteWorker` preserves the length of the comlink-worker array. -/
theorem getEnteWorker_comlink_length (c : LocalMLSyncContext) (id : Nat) :
    (getEnteWorker c id).1.enteComlinkWorkers.length =
      c.enteComlinkWorkers.length := by
  rcases h : c.enteWorkers.getD (id % c.enteWorkers.length) none with _ | w
  · rw [getEnteWorker_created c id h]
    simp
  · rw [getEnteWorker_occupied c id w h]

/-- An occupied slot is never overwritten by any later call. -/
theorem getEnteWorker_preserves_slot (c : LocalMLSyncContext) (id s : Nat)
    (w : EnteWorker) (h : c.enteWorkers.getD s none = some w) :
    (getEnteWorker c id).1.enteWorkers.getD s none = some w := by
  rcases hs : c.enteWorkers.getD (id % c.enteWorkers.length) none with _ | w2
  · have hne : id % c.enteWorkers.length ≠ s := by
      intro he
      rw [he, h] at hs
      exact Option.noConfusion hs
    rw [getEnteWorker_created c id hs]
    simpa [List.getElem?_set_ne hne] using h
  · rw [getEnteWorker_occupied c id w2 hs]
    exact h

/-- After a call (with a nonempty pool), the target slot stores exactly the
returned handle. -/
theorem getEnteWorker_returns_slot (c : LocalMLSyncContext) (id : Nat)
    (hlen : 0 < c.enteWorkers.length) :
    (getEnteWorker c id).1.enteWorkers.getD
      (id % c.enteWorkers.length) none = some (getEnteWorker c id).2 := by
  rcases h : c.enteWorkers.getD (id % c.enteWorkers.length) none with _ | w
  · rw [getEnteWorker_created c id h]
    simp [List.getElem?_set_self',
      List.getElem?_eq_getElem (Nat.mod_lt id hlen)]
  · rw [getEnteWorker_occupied c id w h]
    exact h

/-- A call mapping to a different slot leaves this slot's entry unchanged. -/
theorem getEnteWorker_other_slot (c : LocalMLSyncContext) (id s : Nat)
    (h : id % c.enteWorkers.length ≠ s) :
    (getEnteWorker c id).1.enteWorkers.getD s none =
      c.enteWorkers.getD s none := by
  rcases hs : c.enteWorkers.getD (id % c.enteWorkers.length) none with _ | w
  · rw [getEnteWorker_created c id hs]
    simp [List.getElem?_set_ne h]
  · rw [getEnteWorker_occupied c id w hs]

/-- Unfolding lemma: an empty call sequence. -/
theorem runCalls_nil (c : LocalMLSyncContext) : runCalls c [] = c := rfl

/-- Unfolding lemma: one more call at the front. -/
theorem runCalls_cons (c : LocalMLSyncContext) (id : Nat) (ids : List Nat) :
    runCalls c (id :: ids) = runCalls (getEnteWorker c id).1 ids := rfl

/-- Call sequences preserve the worker-array length. -/
theorem runCalls_length (ids : List Nat) :
    ∀ c : LocalMLSyncContext,
      (runCalls c ids).enteWorkers.length = c.enteWorkers.length := by
  induction ids with
  | nil => intro c; rfl
  | cons id ids ih =>
      intro c
      rw [runCalls_cons, ih, getEnteWorker_length]

/-- Call sequences preserve the comlink-array length. -/
theorem runCalls_comlink_length (ids : List Nat) :
    ∀ c : LocalMLSyncContext,
      (runCalls c ids).enteComlinkWorkers.length =
        c.enteComlinkWorkers.length := by
  induction ids with
  | nil => intro c; rfl
  | cons id ids ih =>
      intro c
      rw [runCalls_cons, ih, getEnteWorker_comlink_length]

/-- An occupied slot survives any call sequence with the same handle. -/
theorem runCalls_preserves_slot (ids : List Nat) :
    ∀ (c : LocalMLSyncContext) (s : Nat) (w : EnteWorker),
      c.enteWorkers.getD s none = some w →
      (runCalls c ids).enteWorkers.getD s none = some w := by
  induction ids with
  | nil => intro c s w h; exact h
  | cons id ids ih =>
      intro c s w h
      rw [runCalls_cons]
      exact ih _ s w (getEnteWorker_preserves_slot c id s w h)

/-- A slot no call maps to keeps its entry through the whole sequence. -/
theorem runCalls_untouched_slot (ids : List Nat) :
    ∀ (c : LocalMLSyncContext) (s : Nat),
      (∀ id ∈ ids, id % c.enteWorkers.length ≠ s) →
      (runCalls c ids).enteWorkers.getD s none =
        c.enteWorkers.getD s none := by
  induction ids with
  | nil => intro c s _; rfl
  | cons id ids ih =>
      intro c s h
      rw [runCalls_cons]
      rw [ih _ s (by
        intro id2 hm
        rw [getEnteWorker_length]
        exact h id2 (List.mem_cons_of_mem _ hm))]
      exact getEnteWorker_other_slot c id s (h id (List.mem_cons_self id ids))

/-- The worker ids of the populated comlink slots, in array order: the
workers `dispose`'s loop terminates. -/
def populatedWorkerIds (slots : List (Option ComlinkWorker)) : List Nat :=
  (slots.filterMap id).map ComlinkWorker.workerId

/-- Marking each of a list of worker ids dead in the ghost world. -/
def terminateAll (world : List Bool) (ids : List Nat) : List Bool :=
  ids.foldl (fun w i => w.set i false) world

/-- The termination fold, split into world effect and emitted events. -/
theorem terminateFold_eq (slots : List (Option ComlinkWorker)) :
    ∀ (world : List Bool) (evs : List DisposeEvent),
      slots.foldl terminateStep (world, evs) =
        (terminateAll world (populatedWorkerIds slots),
         evs ++ (populatedWorkerIds slots).map DisposeEvent.terminateWorker) := by
  induction slots with
  | nil => intro world evs; simp [populatedWorkerIds, terminateAll]
  | cons hd tl ih =>
      intro world evs
      cases hd with
      | none =>
          rw [List.foldl_cons]
          show tl.foldl terminateStep (world, evs) = _
          rw [ih world evs]
          simp [populatedWorkerIds]
      | some cw =>
          rw [List.foldl_cons]
          show tl.foldl terminateStep
              (world.set cw.workerId false,
               evs ++ [DisposeEvent.terminateWorker cw.workerId]) = _
          rw [ih]
          simp [populatedWorkerIds, terminateAll]

/-- Closed form of `dispose`: post-state and full event trace. -/
theorem dispose_eq (c : LocalMLSyncContext) :
    dispose c =
      ({ c with
          localFilesMap := none
          syncQueue := { c.syncQueue with listeners := 0 }
          spawnedWorkers := terminateAll c.spawnedWorkers
            (populatedWorkerIds c.enteComlinkWorkers) },
       [DisposeEvent.clearLocalFilesMap, DisposeEvent.awaitQueueIdle,
        DisposeEvent.removeAllListeners] ++
         (populatedWorkerIds c.enteComlinkWorkers).map
           DisposeEvent.terminateWorker) := by
  show (_, _) = _
  rw [show c.enteComlinkWorkers.foldl terminateStep (c.spawnedWorkers, []) =
      _ from terminateFold_eq c.enteComlinkWorkers c.spawnedWorkers []]
  simp [dispose]

/-- Termination preserves the length of the ghost world. -/
theorem terminateAll_length (ids : List Nat) :
    ∀ world : List Bool, (terminateAll world ids).length = world.length := by
  induction ids with
  | nil => intro world; rfl
  | cons i ids ih =>
      intro world
      show (terminateAll (world.set i false) ids).length = _
      rw [ih, List.length_set]

/-- A dead entry stays dead through further terminations. -/
theorem terminateAll_preserves_false (ids : List Nat) :
    ∀ (world : List Bool) (j : Nat), world[j]? = some false →
      (terminateAll world ids)[j]? = some false := by
  induction ids with
  | nil => intro world j h; exact h
  | cons i ids ih =>
      intro world j h
      show (terminateAll (world.set i false) ids)[j]? = some false
      refine ih _ j ?_
      by_cases hij : i = j
      · subst hij
        have hlt : i < world.length := by
          by_contra hge
          rw [List.getElem?_eq_none (Nat.le_of_not_lt hge)] at h
          exact Option.noConfusion h
        simp [List.getElem?_set_self', List.getElem?_eq_getElem hlt]
      · rw [List.getElem?_set_ne hij]
        exact h

/-- After termination, every in-range terminated id reads dead. -/
theorem terminateAll_kills (ids : List Nat) :
    ∀ (world : List Bool) (i : Nat), i ∈ ids → i < world.length →
      (terminateAll world ids)[i]? = some false := by
  induction ids with
  | nil => intro world i h _; exact absurd h (List.not_mem_nil i)
  | cons j ids ih =>
      intro world i hmem hlt
      rcases List.mem_cons.mp hmem with he | htl
      · subst he
        show (terminateAll (world.set i false) ids)[i]? = some false
        refine terminateAll_preserves_false ids _ i ?_
        simp [List.getElem?_set_self', List.getElem?_eq_getElem hlt]
      · show (terminateAll (world.set j false) ids)[i]? = some false
        exact ih _ i htl (by rw [List.length_set]; exact hlt)

/-- Terminating ids that are already dead (or out of range) changes
nothing. -/
theorem terminateAll_fixed (ids : List Nat) :
    ∀ world : List Bool,
      (∀ i ∈ ids, world[i]? = some false ∨ world.length ≤ i) →
      terminateAll world ids = world := by
  induction ids with
  | nil => intro world _; rfl
  | cons i ids ih =>
      intro world h
      have hstep : world.set i false = world := by
        rcases h i (List.mem_cons_self i ids) with hd | hout
        · exact set_self_of_getElem world i false hd
        · exact List.set_eq_of_length_le hout
      show terminateAll (world.set i false) ids = world
      rw [hstep]
      exact ih world (fun j hj => h j (List.mem_cons_of_mem i hj))

/-- Termination is idempotent on the ghost world. -/
theorem terminateAll_idem (world : List Bool) (ids : List Nat) :
    terminateAll (terminateAll world ids) ids = terminateAll world ids := by
  refine terminateAll_fixed ids _ (fun i hi => ?_)
  by_cases hlt : i < world.length
  · exact Or.inl (terminateAll_kills ids world i hi hlt)
  · refine Or.inr ?_
    rw [terminateAll_length]
    exact Nat.le_of_not_lt hlt

/-- The derived default concurrency is positive, so every constructed
context has a positive concurrency. -/
theorem resolveConcurrency_pos (a : Option Nat) : 0 < resolveConcurrency a := by
  rcases a with _ | k
  · decide
  · by_cases hk : k = 0
    · simp [resolveConcurrency, hk, CONCURRENCY]
    · simp [resolveConcurrency, hk]
      exact Nat.pos_of_ne_zero hk

/-- Reading any index of an all-empty pool gives an empty slot. -/
theorem getD_replicate_none {α : Type} (n s : Nat) :
    (List.replicate n (none : Option α)).getD s none = none := by
  rw [List.getD_eq_getElem?_getD, List.getElem?_replicate]
  by_cases h : s < n <;> simp [h]

/-- Characterization of a successful construction: every field of the
resulting context. -/
theorem construct_ok_fields (token : String) (config : MLSyncConfig)
    (flag : Bool) (concArg : Option Nat) (c : LocalMLSyncContext)
    (hc : construct token config flag concArg = .ok c) :
    c.token = token ∧ c.config = config ∧ c.shouldUpdateMLVersion = flag ∧
    c.localFilesMap = none ∧ c.outOfSyncFiles = [] ∧ c.nSyncedFiles = 0 ∧
    c.nSyncedFaces = 0 ∧ c.allSyncedFacesMap = none ∧ c.error = none ∧
    c.mlLibraryData = none ∧
    c.syncQueue = logQueueStats ⟨resolveConcurrency concArg, 0⟩ ∧
    c.concurrency = resolveConcurrency concArg ∧
    c.enteComlinkWorkers =
      List.replicate (resolveConcurrency concArg) none ∧
    c.enteWorkers = List.replicate (resolveConcurrency concArg) none ∧
    c.spawnedWorkers = [] := by
  rcases h1 : MLFactory.getFaceDetectionService config.faceDetection.method
    with e1 | fd
  case error => simp [construct, h1] at hc
  case ok =>
  rcases h2 : MLFactory.getFaceCropService config.faceCrop.method with e2 | fc
  case error => simp [construct, h1, h2] at hc
  case ok =>
  rcases h3 : MLFactory.getFaceAlignmentService config.faceAlignment.method
    with e3 | fa
  case error => simp [construct, h1, h2, h3] at hc
  case ok =>
  rcases h4 : MLFactory.getFaceEmbeddingService config.faceEmbedding.method
    with e4 | fe
  case error => simp [construct, h1, h2, h3, h4] at hc
  case ok =>
  rcases h5 : MLFactory.getClusteringService config.faceClustering.method
    with e5 | fcl
  case error => simp [construct, h1, h2, h3, h4, h5] at hc
  case ok =>
  simp only [construct, h1, h2, h3, h4, h5, Except.ok.injEq] at hc
  subst hc
  exact ⟨rfl, rfl, rfl, rfl, rfl, rfl, rfl, rfl, rfl, rfl, rfl, rfl, rfl,
    rfl, rfl⟩

/-! ### Concrete fixtures -/

/-- A configuration in which every stage's method is registered. -/
def cfgOK : MLSyncConfig :=
  ⟨⟨"BlazeFace"⟩, ⟨"ArcFace"⟩, ⟨"ArcFace"⟩, ⟨"MobileFaceNet"⟩, ⟨"Hdbscan"⟩⟩

/-- A configuration whose clustering method name is not registered. -/
def cfgBadClustering : MLSyncConfig :=
  ⟨⟨"BlazeFace"⟩, ⟨"ArcFace"⟩, ⟨"ArcFace"⟩, ⟨"MobileFaceNet"⟩, ⟨"KMeans"⟩⟩

/-- The constructor fields that must not be set up when construction fails:
counters, queue, worker-pool arrays (and the remaining sync state). -/
def uninitializedTail (s : InitState) : Prop :=
  s.outOfSyncFiles = none ∧ s.nSyncedFiles = none ∧ s.nSyncedFaces = none ∧
  s.concurrency = none ∧ s.syncQueue = none ∧
  s.enteComlinkWorkers = none ∧ s.enteWorkers = none

/-! ### Claims -/

/-- C1: if some pipeline stage's method name is not registered for its
category, constructing a sync context fails immediately with the
unknown-method error carrying the method name and the stage category, and
performs no partial initialization: at the point of the throw no counters,
queue, or worker-pool arrays have been set up. -/
theorem claim_C1 (token : String) (config : MLSyncConfig)
    (shouldUpdateMLVersion : Bool) (concurrency : Option Nat)
    (h : ¬ ∀ s : MLStage, stageRegistered config s = true) :
    (∃ s m, stageRegistered config s = false ∧ stageMethod config s = m ∧
      construct token config shouldUpdateMLVersion concurrency =
        .error (unknownMethodMessage s m) ∧
      (constructorRun token config shouldUpdateMLVersion concurrency).2 =
        some (unknownMethodMessage s m)) ∧
    uninitializedTail
      (constructorRun token config shouldUpdateMLVersion concurrency).1 := by
  by_cases h1 : config.faceDetection.method = "BlazeFace"
  case neg =>
    refine ⟨⟨.faceDetection, config.faceDetection.method, ?_, rfl, ?_, ?_⟩, ?_⟩
    · simp [stageRegistered, MLFactory.getFaceDetectionService, h1,
        Except.toBool]
    · simp [construct, MLFactory.getFaceDetectionService, h1,
        unknownMethodMessage, MLStage.categoryName]
    · simp [constructorRun, MLFactory.getFaceDetectionService, h1,
        unknownMethodMessage, MLStage.categoryName]
    · simp [constructorRun, MLFactory.getFaceDetectionService, h1,
        uninitializedTail, InitState.empty]
  case pos =>
  by_cases h2 : config.faceCrop.method = "ArcFace"
  case neg =>
    refine ⟨⟨.faceCrop, config.faceCrop.method, ?_, rfl, ?_, ?_⟩, ?_⟩
    · simp [stageRegistered, MLFactory.getFaceCropService, h2, Except.toBool]
    · simp [construct, MLFactory.getFaceDetectionService, h1,
        MLFactory.getFaceCropService, h2,
        unknownMethodMessage, MLStage.categoryName]
    · simp [constructorRun, MLFactory.getFaceDetectionService, h1,
        MLFactory.getFaceCropService, h2,
        unknownMethodMessage, MLStage.categoryName]
    · simp [constructorRun, MLFactory.getFaceDetectionService, h1,
        MLFactory.getFaceCropService, h2, uninitializedTail, InitState.empty]
  case pos =>
  by_cases h3 : config.faceAlignment.method = "ArcFace"
  case neg =>
    refine ⟨⟨.faceAlignment, config.faceAlignment.method, ?_, rfl, ?_, ?_⟩, ?_⟩
    · simp [stageRegistered, MLFactory.getFaceAlignmentService, h3,
        Except.toBool]
    · simp [construct, MLFactory.getFaceDetectionService, h1,
        MLFactory.getFaceCropService, h2,
        MLFactory.getFaceAlignmentService, h3,
        unknownMethodMessage, MLStage.categoryName]
    · simp [constructorRun, MLFactory.getFaceDetectionService, h1,
        MLFactory.getFaceCropService, h2,
        MLFactory.getFaceAlignmentService, h3,
        unknownMethodMessage, MLStage.categoryName]
    · simp [constructorRun, MLFactory.getFaceDetectionService, h1,
        MLFactory.getFaceCropService, h2,
        MLFactory.getFaceAlignmentService, h3,
        uninitializedTail, InitState.empty]
  case pos =>
  by_cases h4 : config.faceEmbedding.method = "MobileFaceNet"
  case neg =>
    refine ⟨⟨.faceEmbedding, config.faceEmbedding.method, ?_, rfl, ?_, ?_⟩, ?_⟩
    · simp [stageRegistered, MLFactory.getFaceEmbeddingService, h4,
        Except.toBool]
    · simp [construct, MLFactory.getFaceDetectionService, h1,
        MLFactory.getFaceCropService, h2,
        MLFactory.getFaceAlignmentService, h3,
        MLFactory.getFaceEmbeddingService, h4,
        unknownMethodMessage, MLStage.categoryName]
    · simp [constructorRun, MLFactory.getFaceDetectionService, h1,
        MLFactory.getFaceCropService, h2,
        MLFactory.getFaceAlignmentService, h3,
        MLFactory.getFaceEmbeddingService, h4,
        unknownMethodMessage, MLStage.categoryName]
    · simp [constructorRun, MLFactory.getFaceDetectionService, h1,
        MLFactory.getFaceCropService, h2,
        MLFactory.getFaceAlignmentService, h3,
        MLFactory.getFaceEmbeddingService, h4,
        uninitializedTail, InitState.empty]
  case pos =>
  by_cases h5 : config.faceClustering.method = "Hdbscan"
  case pos =>
    exact absurd (fun s => by
      cases s <;>
        simp [stageRegistered, MLFactory.getFaceDetectionService,
          MLFactory.getFaceCropService, MLFactory.getFaceAlignmentService,
          MLFactory.getFaceEmbeddingService, MLFactory.getClusteringService,
          h1, h2, h3, h4, h5, Except.toBool]) h
  case neg =>
  by_cases h6 : config.faceClustering.method = "Dbscan"
  case pos =>
    exact absurd (fun s => by
      cases s <;>
        simp [stageRegistered, MLFactory.getFaceDetectionService,
          MLFactory.getFaceCropService, MLFactory.getFaceAlignmentService,
          MLFactory.getFaceEmbeddingService, MLFactory.getClusteringService,
          h1, h2, h3, h4, h5, h6, Except.toBool]) h
  case neg =>
    refine ⟨⟨.faceClustering, config.faceClustering.method, ?_, rfl, ?_, ?_⟩,
      ?_⟩
    · simp [stageRegistered, MLFactory.getClusteringService, h5, h6,
        Except.toBool]
    · simp [construct, MLFactory.getFaceDetectionService, h1,
        MLFactory.getFaceCropService, h2,
        MLFactory.getFaceAlignmentService, h3,
        MLFactory.getFaceEmbeddingService, h4,
        MLFactory.getClusteringService, h5, h6,
        unknownMethodMessage, MLStage.categoryName]
    · simp [constructorRun, MLFactory.getFaceDetectionService, h1,
        MLFactory.getFaceCropService, h2,
        MLFactory.getFaceAlignmentService, h3,
        MLFactory.getFaceEmbeddingService, h4,
        MLFactory.getClusteringService, h5, h6,
        unknownMethodMessage, MLStage.categoryName]
    · simp [constructorRun, MLFactory.getFaceDetectionService, h1,
        MLFactory.getFaceCropService, h2,
        MLFactory.getFaceAlignmentService, h3,
        MLFactory.getFaceEmbeddingService, h4,
        MLFactory.getClusteringService, h5, h6,
        uninitializedTail, InitState.empty]

/-- Witness for C1 at a concrete misconfigured input: the unregistered
clustering method `KMeans` aborts construction with the unknown-method
error and leaves counters, queue and pool arrays unassigned. -/
theorem claim_C1_witness :
    (¬ ∀ s : MLStage, stageRegistered cfgBadClustering s = true) ∧
    ((∃ s m, stageRegistered cfgBadClustering s = false ∧
        stageMethod cfgBadClustering s = m ∧
        construct "token" cfgBadClustering true none =
          .error (unknownMethodMessage s m) ∧
        (constructorRun "token" cfgBadClustering true none).2 =
          some (unknownMethodMessage s m)) ∧
      uninitializedTail (constructorRun "token" cfgBadClustering true none).1) :=
  ⟨fun hall => absurd (hall MLStage.faceClustering) (by decide),
   claim_C1 "token" cfgBadClustering true none
     (fun hall => absurd (hall MLStage.faceClustering) (by decide))⟩

/-- The context produced by `construct "t" cfgOK true (some 2)`:
concurrency 2, both pools two empty slots, queue with one listener. -/
def ctxOK : LocalMLSyncContext :=
  { token := "t"
    config := cfgOK
    shouldUpdateMLVersion := true
    faceDetectionService := .blazeFaceDetectionService
    faceCropService := .arcfaceCropService
    faceAlignmentService := .arcfaceAlignmentService
    faceEmbeddingService := .mobileFaceNetEmbeddingService
    faceClusteringService := .hdbscanClusteringService
    localFilesMap := none
    outOfSyncFiles := []
    nSyncedFiles := 0
    nSyncedFaces := 0
    allSyncedFacesMap := none
    error := none
    mlLibraryData := none
    syncQueue := ⟨2, 1⟩
    concurrency := 2
    enteComlinkWorkers := [none, none]
    enteWorkers := [none, none]
    spawnedWorkers := [] }

/-- C2: for a constructed context with concurrency `C`, task ids with equal
residue mod `C` resolve to the same worker handle instance once both have
been acquired (any calls in between); a slot stays empty until the first
call that maps to it; and an occupied slot is never replaced by any later
call. -/
theorem claim_C2 (token : String) (config : MLSyncConfig) (flag : Bool)
    (concArg : Option Nat) (c : LocalMLSyncContext)
    (hc : construct token config flag concArg = .ok c)
    (i j : Nat) (hij : i % c.concurrency = j % c.concurrency)
    (pre mids : List Nat) (s : Nat) :
    (getEnteWorker (runCalls (getEnteWorker (runCalls c pre) i).1 mids) j).2 =
      (getEnteWorker (runCalls c pre) i).2 ∧
    ((∀ id ∈ pre, id % c.concurrency ≠ s) →
      (runCalls c pre).enteWorkers.getD s none = none) ∧
    (∀ w ids, (runCalls c pre).enteWorkers.getD s none = some w →
      (runCalls (runCalls c pre) ids).enteWorkers.getD s none = some w) := by
  obtain ⟨-, -, -, -, -, -, -, -, -, -, -, hconc, -, hwork, -⟩ :=
    construct_ok_fields token config flag concArg c hc
  have hlen : c.enteWorkers.length = c.concurrency := by
    rw [hwork, List.length_replicate, hconc]
  have hpos : 0 < c.enteWorkers.length := by
    rw [hlen, hconc]
    exact resolveConcurrency_pos concArg
  refine ⟨?_, ?_, ?_⟩
  · have hlen0 : (runCalls c pre).enteWorkers.length = c.enteWorkers.length :=
      runCalls_length pre c
    have hpos0 : 0 < (runCalls c pre).enteWorkers.length := by
      rw [hlen0]; exact hpos
    have hslot1 := getEnteWorker_returns_slot (runCalls c pre) i hpos0
    have hslot2 := runCalls_preserves_slot mids _ _ _ hslot1
    have hlen2 :
        (runCalls (getEnteWorker (runCalls c pre) i).1 mids).enteWorkers.length
          = (runCalls c pre).enteWorkers.length := by
      rw [runCalls_length, getEnteWorker_length]
    have hsame :
        j % (runCalls (getEnteWorker (runCalls c pre) i).1
              mids).enteWorkers.length
          = i % (runCalls c pre).enteWorkers.length := by
      rw [hlen2, hlen0, hlen, ← hij]
    rw [← hsame] at hslot2
    have := getEnteWorker_occupied _ j _ hslot2
    rw [this]
  · intro hpre
    have huntouched := runCalls_untouched_slot pre c s (by
      intro id hm
      rw [hlen]
      exact hpre id hm)
    rw [huntouched, hwork]
    exact getD_replicate_none _ s
  · intro w ids hocc
    exact runCalls_preserves_slot ids _ s w hocc

/-- Witness for C2 at concrete inputs: context of concurrency 2; ids 1 and 3
share slot 1 and resolve to the same handle across interleaved calls. -/
theorem claim_C2_witness :
    construct "t" cfgOK true (some 2) = .ok ctxOK ∧
    1 % ctxOK.concurrency = 3 % ctxOK.concurrency ∧
    ((getEnteWorker (runCalls (getEnteWorker (runCalls ctxOK [0]) 1).1 [2, 4])
        3).2 = (getEnteWorker (runCalls ctxOK [0]) 1).2 ∧
     ((∀ id ∈ [0], id % ctxOK.concurrency ≠ 1) →
       (runCalls ctxOK [0]).enteWorkers.getD 1 none = none) ∧
     (∀ w ids, (runCalls ctxOK [0]).enteWorkers.getD 1 none = some w →
       (runCalls (runCalls ctxOK [0]) ids).enteWorkers.getD 1 none =
         some w)) :=
  ⟨rfl, by decide,
   claim_C2 "t" cfgOK true (some 2) ctxOK rfl 1 3 (by decide)
     [0] [2, 4] 1⟩

/-- A context with one populated worker slot: `ctxOK` after one call. -/
def ctxPop : LocalMLSyncContext := (getEnteWorker ctxOK 0).1

/-- C3: `dispose` performs its steps in order — clear `localFilesMap`, await
queue idle, remove the queue's listeners, then terminate exactly the
populated pool slots — and every terminate event is strictly after the
queue-idle event. -/
theorem claim_C3 (c : LocalMLSyncContext) :
    (dispose c).2 =
      [DisposeEvent.clearLocalFilesMap, DisposeEvent.awaitQueueIdle,
       DisposeEvent.removeAllListeners] ++
        (populatedWorkerIds c.enteComlinkWorkers).map
          DisposeEvent.terminateWorker ∧
    ∀ (k w : Nat),
      (dispose c).2[k]? = some (DisposeEvent.terminateWorker w) →
      ∃ m : Nat, m < k ∧
        (dispose c).2[m]? = some DisposeEvent.awaitQueueIdle := by
  refine ⟨by rw [dispose_eq], ?_⟩
  intro k w hk
  rw [dispose_eq] at hk
  match k, hk with
  | 0, hk => simp at hk
  | 1, hk => simp at hk
  | 2, hk => simp at hk
  | m + 3, hk =>
      exact ⟨1, by omega, by rw [dispose_eq]; rfl⟩

/-- Witness for C3 at a concrete context with one populated slot: the trace
is explicit and the terminate event at index 3 has the idle event before
it. -/
theorem claim_C3_witness :
    ((dispose ctxPop).2 =
      [DisposeEvent.clearLocalFilesMap, DisposeEvent.awaitQueueIdle,
       DisposeEvent.removeAllListeners] ++
        (populatedWorkerIds ctxPop.enteComlinkWorkers).map
          DisposeEvent.terminateWorker) ∧
    (dispose ctxPop).2[3]? = some (DisposeEvent.terminateWorker 0) ∧
    (∃ m : Nat, m < 3 ∧
      (dispose ctxPop).2[m]? = some DisposeEvent.awaitQueueIdle) :=
  ⟨(claim_C3 ctxPop).1, by decide,
   (claim_C3 ctxPop).2 3 0 (by decide)⟩

/-- C4: over any constructed context and any (interleaved) sequence of
`getEnteWorker` calls, lazy creation happens at most once per slot: the list
of creation events contains no duplicate slot.  Each call body has no
suspension point, so racing acquirers are adjacent atomic calls in the
sequence. -/
theorem claim_C4 (token : String) (config : MLSyncConfig) (flag : Bool)
    (concArg : Option Nat) (c : LocalMLSyncContext)
    (hc : construct token config flag concArg = .ok c)
    (ids : List Nat) : (creationSlots c ids).Nodup := by
  obtain ⟨-, -, -, -, -, -, -, -, -, -, -, hconc, -, hwork, -⟩ :=
    construct_ok_fields token config flag concArg c hc
  have hpos : 0 < c.enteWorkers.length := by
    rw [hwork, List.length_replicate]
    exact resolveConcurrency_pos concArg
  have main : ∀ (l : List Nat) (d : LocalMLSyncContext) (acc : List Nat),
      0 < d.enteWorkers.length →
      (∀ s ∈ acc, d.enteWorkers.getD s none ≠ none) →
      acc.Nodup →
      ((l.foldl creationStep (d, acc)).2).Nodup := by
    intro l
    induction l with
    | nil => intro d acc _ _ hnd; exact hnd
    | cons id l ih =>
        intro d acc hdpos hocc hnd
        rw [List.foldl_cons]
        rcases hslot : d.enteWorkers.getD (id % d.enteWorkers.length) none
          with _ | w
        · have hstep : creationStep (d, acc) id =
              ((getEnteWorker d id).1,
               acc ++ [id % d.enteWorkers.length]) := by
            have hslot2 : d.enteWorkers[id % d.enteWorkers.length]?.getD
                none = none := by
              rw [← List.getD_eq_getElem?_getD]; exact hslot
            simp [creationStep, hslot2]
          rw [hstep]
          refine ih _ _ ?_ ?_ ?_
          · rw [getEnteWorker_length]; exact hdpos
          · intro s hs
            rcases List.mem_append.mp hs with hsl | hsr
            · rcases ho : d.enteWorkers.getD s none with _ | ws
              · exact absurd ho (hocc s hsl)
              · rw [getEnteWorker_preserves_slot d id s ws ho]
                exact fun h => Option.noConfusion h
            · have : s = id % d.enteWorkers.length :=
                List.mem_singleton.mp hsr
              subst this
              rw [getEnteWorker_returns_slot d id hdpos]
              exact fun h => Option.noConfusion h
          · refine List.Nodup.append hnd (List.nodup_singleton _) ?_
            intro s hsl hsr
            have : s = id % d.enteWorkers.length :=
              List.mem_singleton.mp hsr
            subst this
            exact (hocc _ hsl) hslot
        · have hstep : creationStep (d, acc) id =
              ((getEnteWorker d id).1, acc) := by
            have hslot2 : d.enteWorkers[id % d.enteWorkers.length]?.getD
                none = some w := by
              rw [← List.getD_eq_getElem?_getD]; exact hslot
            simp [creationStep, hslot2]
          rw [hstep]
          refine ih _ _ ?_ ?_ hnd
          · rw [getEnteWorker_length]; exact hdpos
          · intro s hs
            rcases ho : d.enteWorkers.getD s none with _ | ws
            · exact absurd ho (hocc s hs)
            · rw [getEnteWorker_preserves_slot d id s ws ho]
              exact fun h => Option.noConfusion h
  exact main ids c [] hpos (fun s hs => absurd hs (List.not_mem_nil s))
    List.nodup_nil

/-- Witness for C4 at concrete inputs: with concurrency 2 and the call
sequence `[0, 1, 2, 3, 1]` only slots 0 and 1 are created, once each. -/
theorem claim_C4_witness :
    construct "t" cfgOK true (some 2) = .ok ctxOK ∧
    (creationSlots ctxOK [0, 1, 2, 3, 1]).Nodup :=
  ⟨rfl, claim_C4 "t" cfgOK true (some 2) ctxOK rfl [0, 1, 2, 3, 1]⟩

/-- C5: in a constructed context both worker-pool arrays have length exactly
the configured concurrency, this is preserved by any call sequence, and at
most `concurrency` slots of either array are ever populated. -/
theorem claim_C5 (token : String) (config : MLSyncConfig) (flag : Bool)
    (concArg : Option Nat) (c : LocalMLSyncContext)
    (hc : construct token config flag concArg = .ok c)
    (ids : List Nat) :
    c.enteComlinkWorkers.length = c.concurrency ∧
    c.enteWorkers.length = c.concurrency ∧
    (runCalls c ids).enteComlinkWorkers.length = c.concurrency ∧
    (runCalls c ids).enteWorkers.length = c.concurrency ∧
    (runCalls c ids).enteWorkers.countP Option.isSome ≤ c.concurrency ∧
    (runCalls c ids).enteComlinkWorkers.countP Option.isSome ≤
      c.concurrency := by
  obtain ⟨-, -, -, -, -, -, -, -, -, -, -, hconc, hcom, hwork, -⟩ :=
    construct_ok_fields token config flag concArg c hc
  have h1 : c.enteComlinkWorkers.length = c.concurrency := by
    rw [hcom, List.length_replicate, hconc]
  have h2 : c.enteWorkers.length = c.concurrency := by
    rw [hwork, List.length_replicate, hconc]
  have h3 : (runCalls c ids).enteComlinkWorkers.length = c.concurrency := by
    rw [runCalls_comlink_length, h1]
  have h4 : (runCalls c ids).enteWorkers.length = c.concurrency := by
    rw [runCalls_length, h2]
  refine ⟨h1, h2, h3, h4, ?_, ?_⟩
  · calc (runCalls c ids).enteWorkers.countP Option.isSome
        ≤ (runCalls c ids).enteWorkers.length := List.countP_le_length _
      _ = c.concurrency := h4
  · calc (runCalls c ids).enteComlinkWorkers.countP Option.isSome
        ≤ (runCalls c ids).enteComlinkWorkers.length :=
          List.countP_le_length _
      _ = c.concurrency := h3

/-- Witness for C5 at concrete inputs: concurrency 2 and five calls. -/
theorem claim_C5_witness :
    construct "t" cfgOK true (some 2) = .ok ctxOK ∧
    (ctxOK.enteComlinkWorkers.length = ctxOK.concurrency ∧
     ctxOK.enteWorkers.length = ctxOK.concurrency ∧
     (runCalls ctxOK [0, 1, 2, 3, 1]).enteComlinkWorkers.length =
       ctxOK.concurrency ∧
     (runCalls ctxOK [0, 1, 2, 3, 1]).enteWorkers.length =
       ctxOK.concurrency ∧
     (runCalls ctxOK [0, 1, 2, 3, 1]).enteWorkers.countP Option.isSome ≤
       ctxOK.concurrency ∧
     (runCalls ctxOK [0, 1, 2, 3, 1]).enteComlinkWorkers.countP
       Option.isSome ≤ ctxOK.concurrency) :=
  ⟨rfl, claim_C5 "t" cfgOK true (some 2) ctxOK rfl [0, 1, 2, 3, 1]⟩

/-- Counterexample to C6 as stated: at a concrete context with slot 0 empty,
when the comlink wrap step throws after the raw worker spawn succeeded, the
call fails but the comlink-worker array at that index is left populated —
the slot does not remain empty in both pool arrays. -/
theorem claim_C6_counterexample :
    (getEnteWorkerFI SpawnOutcome.failWrap ctxOK 0).2 =
      Except.error "comlink wrap failed" ∧
    (getEnteWorkerFI SpawnOutcome.failWrap
        ctxOK 0).1.enteComlinkWorkers.getD 0 none = some ⟨0⟩ ∧
    ¬ (getEnteWorkerFI SpawnOutcome.failWrap
        ctxOK 0).1.enteComlinkWorkers.getD 0 none = none :=
  ⟨rfl, rfl, by decide⟩

/-- C6 (amended): if creating a slot's backing execution context fails
during `getEnteWorker`, the call fails with the creation error and the
worker-array slot stays empty, so a later call mapping to the same slot
retries creation (and such a retry can succeed); other slots of both arrays
are unaffected.  When the raw spawn itself fails the state is entirely
unchanged; only when the wrap step fails does the comlink-worker array keep
the already-spawned worker. -/
theorem claim_C6_amended (c : LocalMLSyncContext) (id : Nat)
    (outcome : SpawnOutcome) (hno : outcome ≠ SpawnOutcome.ok)
    (hempty : c.enteWorkers.getD (id % c.enteWorkers.length) none = none) :
    (∃ e, (getEnteWorkerFI outcome c id).2 = Except.error e) ∧
    (getEnteWorkerFI outcome c id).1.enteWorkers = c.enteWorkers ∧
    (outcome = SpawnOutcome.failSpawn →
      (getEnteWorkerFI outcome c id).1 = c) ∧
    (∀ s, s ≠ id % c.enteWorkers.length →
      (getEnteWorkerFI outcome c id).1.enteComlinkWorkers.getD s none =
        c.enteComlinkWorkers.getD s none) ∧
    (∃ w, (getEnteWorkerFI SpawnOutcome.ok
        (getEnteWorkerFI outcome c id).1 id).2 = Except.ok w) := by
  have hempty2 : c.enteWorkers[id % c.enteWorkers.length]?.getD
      none = none := by
    rw [← List.getD_eq_getElem?_getD]; exact hempty
  cases outcome with
  | ok => exact absurd rfl hno
  | failSpawn =>
      have hfi : getEnteWorkerFI SpawnOutcome.failSpawn c id =
          (c, Except.error "worker spawn failed") := by
        simp [getEnteWorkerFI, hempty2]
      rw [hfi]
      refine ⟨⟨"worker spawn failed", rfl⟩, rfl, fun _ => rfl,
        fun s _ => rfl, ⟨⟨c.spawnedWorkers.length⟩, ?_⟩⟩
      simp [getEnteWorkerFI, hempty2]
  | failWrap =>
      have hfi : getEnteWorkerFI SpawnOutcome.failWrap c id =
          ({ c with
              enteComlinkWorkers := c.enteComlinkWorkers.set
                (id % c.enteWorkers.length)
                (some ⟨c.spawnedWorkers.length⟩)
              spawnedWorkers := c.spawnedWorkers ++ [true] },
           Except.error "comlink wrap failed") := by
        simp [getEnteWorkerFI, hempty2]
      rw [hfi]
      refine ⟨⟨"comlink wrap failed", rfl⟩, rfl,
        fun h => SpawnOutcome.noConfusion h, ?_, ?_⟩
      · intro s hs
        show (c.enteComlinkWorkers.set (id % c.enteWorkers.length)
            (some ⟨c.spawnedWorkers.length⟩)).getD s none =
          c.enteComlinkWorkers.getD s none
        rw [List.getD_eq_getElem?_getD, List.getD_eq_getElem?_getD,
          List.getElem?_set_ne (fun he => hs he.symm)]
      · refine ⟨⟨(c.spawnedWorkers ++ [true]).length⟩, ?_⟩
        simp [getEnteWorkerFI, hempty2]

/-- Witness for (amended) C6 at concrete inputs: wrap failure at slot 0 of a
fresh concurrency-2 context. -/
theorem claim_C6_amended_witness :
    SpawnOutcome.failWrap ≠ SpawnOutcome.ok ∧
    ctxOK.enteWorkers.getD (0 % ctxOK.enteWorkers.length) none = none ∧
    ((∃ e, (getEnteWorkerFI SpawnOutcome.failWrap ctxOK 0).2 =
        Except.error e) ∧
     (getEnteWorkerFI SpawnOutcome.failWrap ctxOK 0).1.enteWorkers =
       ctxOK.enteWorkers ∧
     (SpawnOutcome.failWrap = SpawnOutcome.failSpawn →
       (getEnteWorkerFI SpawnOutcome.failWrap ctxOK 0).1 = ctxOK) ∧
     (∀ s, s ≠ 0 % ctxOK.enteWorkers.length →
       (getEnteWorkerFI SpawnOutcome.failWrap
           ctxOK 0).1.enteComlinkWorkers.getD s none =
         ctxOK.enteComlinkWorkers.getD s none) ∧
     (∃ w, (getEnteWorkerFI SpawnOutcome.ok
         (getEnteWorkerFI SpawnOutcome.failWrap ctxOK 0).1 0).2 =
       Except.ok w)) :=
  ⟨by decide, by decide,
   claim_C6_amended ctxOK 0 SpawnOutcome.failWrap (by decide) (by decide)⟩

/-- Counterexample to C7 as stated: at a concrete successful construction,
`localFilesMap` and `allSyncedFacesMap` are not initialized to empty
collections — the constructor leaves them undefined (`none`). -/
theorem claim_C7_counterexample :
    construct "t" cfgOK true (some 2) = Except.ok ctxOK ∧
    ctxOK.localFilesMap = none ∧
    ¬ ctxOK.localFilesMap = some [] ∧
    ctxOK.allSyncedFacesMap = none ∧
    ¬ ctxOK.allSyncedFacesMap = some [] :=
  ⟨rfl, rfl, by decide, rfl, by decide⟩

/-- C7 (amended): on every successful construction, the context's
concurrency equals the explicit argument when a positive one is supplied and
the derived default otherwise; `nSyncedFiles` and `nSyncedFaces` are zero;
`outOfSyncFiles` is empty; but `localFilesMap` and `allSyncedFacesMap` are
left unset (`none`), not initialized to empty collections. -/
theorem claim_C7_amended (token : String) (config : MLSyncConfig)
    (flag : Bool) (concArg : Option Nat) (c : LocalMLSyncContext)
    (hc : construct token config flag concArg = .ok c) :
    (∀ k, concArg = some k → 0 < k → c.concurrency = k) ∧
    (concArg = none → c.concurrency = CONCURRENCY) ∧
    c.nSyncedFiles = 0 ∧ c.nSyncedFaces = 0 ∧ c.outOfSyncFiles = [] ∧
    c.localFilesMap = none ∧ c.allSyncedFacesMap = none := by
  obtain ⟨-, -, -, hlfm, hoos, hnf, hnfa, hasm, -, -, -, hconc, -, -, -⟩ :=
    construct_ok_fields token config flag concArg c hc
  refine ⟨?_, ?_, hnf, hnfa, hoos, hlfm, hasm⟩
  · intro k hk hkpos
    subst hk
    rw [hconc]
    simp [resolveConcurrency, Nat.pos_iff_ne_zero.mp hkpos]
  · intro hk
    subst hk
    rw [hconc]
    rfl

/-- Witness for (amended) C7 at concrete inputs. -/
theorem claim_C7_amended_witness :
    construct "t" cfgOK true (some 2) = Except.ok ctxOK ∧
    ((∀ k, some 2 = some k → 0 < k → ctxOK.concurrency = k) ∧
     ((some 2 : Option Nat) = none → ctxOK.concurrency = CONCURRENCY) ∧
     ctxOK.nSyncedFiles = 0 ∧ ctxOK.nSyncedFaces = 0 ∧
     ctxOK.outOfSyncFiles = [] ∧ ctxOK.localFilesMap = none ∧
     ctxOK.allSyncedFacesMap = none) :=
  ⟨rfl, claim_C7_amended "t" cfgOK true (some 2) ctxOK rfl⟩

/-- C8: the double-disposal policy the code implements is the no-op one,
consistently: `dispose` never fails (it is total), and a second `dispose`
leaves the context state — including the liveness of every spawned raw
worker — exactly as the first left it. -/
theorem claim_C8 (c : LocalMLSyncContext) :
    (dispose (dispose c).1).1 = (dispose c).1 := by
  rw [dispose_eq c, dispose_eq]
  simp [terminateAll_idem]

/-- C9: `getEnteWorker` (for any id) and `dispose` leave `token`, `config`,
`shouldUpdateMLVersion`, the five resolved stage-service references, and
`concurrency` unchanged. -/
theorem claim_C9 (c : LocalMLSyncContext) (id : Nat) :
    ((getEnteWorker c id).1.token = c.token ∧
     (getEnteWorker c id).1.config = c.config ∧
     (getEnteWorker c id).1.shouldUpdateMLVersion =
       c.shouldUpdateMLVersion ∧
     (getEnteWorker c id).1.faceDetectionService = c.faceDetectionService ∧
     (getEnteWorker c id).1.faceCropService = c.faceCropService ∧
     (getEnteWorker c id).1.faceAlignmentService = c.faceAlignmentService ∧
     (getEnteWorker c id).1.faceEmbeddingService = c.faceEmbeddingService ∧
     (getEnteWorker c id).1.faceClusteringService = c.faceClusteringService ∧
     (getEnteWorker c id).1.concurrency = c.concurrency) ∧
    ((dispose c).1.token = c.token ∧
     (dispose c).1.config = c.config ∧
     (dispose c).1.shouldUpdateMLVersion = c.shouldUpdateMLVersion ∧
     (dispose c).1.faceDetectionService = c.faceDetectionService ∧
     (dispose c).1.faceCropService = c.faceCropService ∧
     (dispose c).1.faceAlignmentService = c.faceAlignmentService ∧
     (dispose c).1.faceEmbeddingService = c.faceEmbeddingService ∧
     (dispose c).1.faceClusteringService = c.faceClusteringService ∧
     (dispose c).1.concurrency = c.concurrency) := by
  constructor
  · rcases hs : c.enteWorkers.getD (id % c.enteWorkers.length) none with _ | w
    · rw [getEnteWorker_created c id hs]
      exact ⟨rfl, rfl, rfl, rfl, rfl, rfl, rfl, rfl, rfl⟩
    · rw [getEnteWorker_occupied c id w hs]
      exact ⟨rfl, rfl, rfl, rfl, rfl, rfl, rfl, rfl, rfl⟩
  · rw [dispose_eq]
    exact ⟨rfl, rfl, rfl, rfl, rfl, rfl, rfl, rfl, rfl⟩

/-- C10: `dispose` changes only `localFilesMap` (to `undefined`), the
queue's listeners and the liveness of the backing workers: counters, file
collections, error, library data, and both worker-pool arrays are
unchanged.  Consequently a `getEnteWorker` call after `dispose` on a
populated slot still returns the stored handle without error and without
state change, and that handle's backing raw worker is terminated. -/
theorem claim_C10 (c : LocalMLSyncContext) (id : Nat) (w : EnteWorker)
    (hw : c.enteWorkers.getD (id % c.enteWorkers.length) none = some w) :
    ((dispose c).1.nSyncedFiles = c.nSyncedFiles ∧
     (dispose c).1.nSyncedFaces = c.nSyncedFaces ∧
     (dispose c).1.outOfSyncFiles = c.outOfSyncFiles ∧
     (dispose c).1.allSyncedFacesMap = c.allSyncedFacesMap ∧
     (dispose c).1.error = c.error ∧
     (dispose c).1.mlLibraryData = c.mlLibraryData ∧
     (dispose c).1.enteComlinkWorkers = c.enteComlinkWorkers ∧
     (dispose c).1.enteWorkers = c.enteWorkers ∧
     (dispose c).1.localFilesMap = none ∧
     (dispose c).1.syncQueue.listeners = 0 ∧
     (dispose c).1.syncQueue.concurrency = c.syncQueue.concurrency) ∧
    getEnteWorker (dispose c).1 id = ((dispose c).1, w) ∧
    (∀ cw : ComlinkWorker,
      c.enteComlinkWorkers.getD (id % c.enteWorkers.length) none = some cw →
      cw.workerId < c.spawnedWorkers.length →
      (dispose c).1.spawnedWorkers[cw.workerId]? = some false) := by
  have hframe : (dispose c).1.enteWorkers = c.enteWorkers := by
    rw [dispose_eq]
  refine ⟨?_, ?_, ?_⟩
  · rw [dispose_eq]
    exact ⟨rfl, rfl, rfl, rfl, rfl, rfl, rfl, rfl, rfl, rfl, rfl⟩
  · refine getEnteWorker_occupied (dispose c).1 id w ?_
    rw [hframe]
    exact hw
  · intro cw hcw hrange
    have hmem : cw.workerId ∈ populatedWorkerIds c.enteComlinkWorkers := by
      have hsome : some cw ∈ c.enteComlinkWorkers := by
        rw [List.getD_eq_getElem?_getD] at hcw
        rcases hg : c.enteComlinkWorkers[id % c.enteWorkers.length]?
          with _ | x
        · rw [hg] at hcw
          exact absurd hcw (by simp)
        · rw [hg] at hcw
          simp only [Option.getD_some] at hcw
          rw [hcw] at hg
          exact List.getElem?_mem hg
      refine List.mem_map.mpr ⟨cw, ?_, rfl⟩
      exact List.mem_filterMap.mpr ⟨some cw, hsome, rfl⟩
    rw [dispose_eq]
    exact terminateAll_kills _ c.spawnedWorkers cw.workerId hmem hrange

/-- Witness for C10 at a concrete disposed context: slot 0 of `ctxPop` is
populated, `dispose` leaves everything but the map, listeners and worker
liveness unchanged, and a post-dispose call still returns the handle, now
backed by the terminated worker 0. -/
theorem claim_C10_witness :
    ctxPop.enteWorkers.getD (0 % ctxPop.enteWorkers.length) none =
      some ⟨0⟩ ∧
    (((dispose ctxPop).1.nSyncedFiles = ctxPop.nSyncedFiles ∧
      (dispose ctxPop).1.nSyncedFaces = ctxPop.nSyncedFaces ∧
      (dispose ctxPop).1.outOfSyncFiles = ctxPop.outOfSyncFiles ∧
      (dispose ctxPop).1.allSyncedFacesMap = ctxPop.allSyncedFacesMap ∧
      (dispose ctxPop).1.error = ctxPop.error ∧
      (dispose ctxPop).1.mlLibraryData = ctxPop.mlLibraryData ∧
      (dispose ctxPop).1.enteComlinkWorkers = ctxPop.enteComlinkWorkers ∧
      (dispose ctxPop).1.enteWorkers = ctxPop.enteWorkers ∧
      (dispose ctxPop).1.localFilesMap = none ∧
      (dispose ctxPop).1.syncQueue.listeners = 0 ∧
      (dispose ctxPop).1.syncQueue.concurrency =
        ctxPop.syncQueue.concurrency) ∧
     getEnteWorker (dispose ctxPop).1 0 = ((dispose ctxPop).1, ⟨0⟩) ∧
     (∀ cw : ComlinkWorker,
       ctxPop.enteComlinkWorkers.getD (0 % ctxPop.enteWorkers.length)
           none = some cw →
       cw.workerId < ctxPop.spawnedWorkers.length →
       (dispose ctxPop).1.spawnedWorkers[cw.workerId]? = some false)) :=
  ⟨by decide, claim_C10 ctxPop 0 ⟨0⟩ (by decide)⟩

end MLSyncModel
